import Mathlib

/-!
Shallow embedding of the themes selector layer of this repository
(`client/state/themes/selectors.js`) together with the state slices and
sibling-selector contracts it consumes.  JavaScript `null`/`undefined`
values are rendered as `Option.none`, JS objects as structures, and the
per-site theme query managers as functions from theme ids / serialized
queries to optional results.  Lodash helpers used by the source
(`find`, `includes`, `uniq`, `some`) are embedded as the corresponding
list operations with JS semantics (`uniq` keeps the first occurrence).
-/

/-- A theme record, identified by `(source, themeId)`.  Field selection of the
source records: `stylesheet` is used by the customizer URL builder, `premium`
and `price` by the pricing rules, `demo_uri` by the demo URL selector.
`price` and `demo_uri` are optional since JS `get(theme, field)` may yield
`undefined`. -/
structure Theme where
  id : String
  stylesheet : String
  premium : Bool
  price : Option String
  demo_uri : Option String
deriving DecidableEq

/-- A source key of the per-source theme collections: the WP.com directory,
the WP.org directory, a Jetpack site, or the JS `undefined` site id. -/
inductive Source where
  | wpcom
  | wporg
  | site (id : Nat)
  | undef
deriving DecidableEq

/-- Serialized theme queries are opaque to the selectors under study. -/
abbrev ThemeQuery := String

/-- The theme query manager collaborator: `getItem` looks a single theme up by
id, `getItems` returns the page result set for a query — possibly `none`
(nothing received) and possibly containing `none` entries (unresolved
placeholder items known only through a previous `found` count). -/
structure ThemeQueryManager where
  getItem : String → Option Theme
  getItems : ThemeQuery → Option (List (Option Theme))

/-- The single-slot auto-loading-homepage warning record
`{ themeId, show, accepted }`. -/
structure HomepageWarning where
  themeId : String
  showModal : Bool
  accepted : Bool
deriving DecidableEq

/-- The `state.themes` slice: per-source query managers, per-site active theme
ids, and the auto-loading-homepage warning slot. -/
structure ThemesState where
  queries : Source → Option ThemeQueryManager
  activeThemes : Nat → Option String
  themeHasAutoLoadingHomepageWarning : Option HomepageWarning

/-- A site purchase as consumed by `isThemePurchased`: a product slug plus
optional metadata carrying the theme id. -/
structure Purchase where
  productSlug : String
  meta : Option String
deriving DecidableEq

/-- Modelled from the spec: the sibling selectors over the sites, purchases
and plans state slices (`isJetpackSite`, `canJetpackSiteManage`,
`hasJetpackSiteJetpackThemesExtendedFeatures`, `getSiteOption`,
`getSiteSlug`, `getCustomizerUrl`, `getSitePurchases`, `hasFeature`), whose
implementations live outside `src/`.  The spec treats them as black-box
collaborator contracts, so they are embedded as unconstrained functions of
the site id. -/
structure SitesState where
  isJetpack : Nat → Bool
  canManage : Nat → Bool
  hasThemesExtendedFeatures : Nat → Bool
  siteOption : Nat → String → Option String
  siteSlug : Nat → String
  customizerUrl : Option Nat → Option String
  purchases : Nat → List Purchase
  hasFeature : Nat → String → Bool

/-- The global state tree, restricted to the slices the themes selectors
read.  `config` embeds the ambient feature-flag check `config.isEnabled`. -/
structure AppState where
  themes : ThemesState
  sites : SitesState
  config : String → Bool

/-- JS truthiness of a possibly-absent string: `null`/`undefined` and the
empty string are falsy. -/
def truthyStr : Option String → Bool
  | none => false
  | some s => !(s == "")

/-- JS truthiness of a possibly-absent number: `null`/`undefined` and `0` are
falsy. -/
def truthyNat : Option Nat → Bool
  | none => false
  | some n => !(n == 0)

/-- JS string coercion of a possibly-null value used in `+` concatenation:
`null + "s"` is `"nulls"`. -/
def jsString : Option String → String
  | none => "null"
  | some s => s

/-- Modelled from the spec: `isJetpackSite` of the sites slice; false for an
absent site id (the selector requires a site record). -/
def isJetpackSite (state : AppState) : Option Nat → Bool
  | none => false
  | some siteId => state.sites.isJetpack siteId

/-- Modelled from the spec: `canJetpackSiteManage` of the sites slice. -/
def canJetpackSiteManage (state : AppState) : Option Nat → Bool
  | none => false
  | some siteId => state.sites.canManage siteId

/-- Modelled from the spec: `hasJetpackSiteJetpackThemesExtendedFeatures` of
the sites slice. -/
def hasJetpackSiteJetpackThemesExtendedFeatures (state : AppState) : Option Nat → Bool
  | none => false
  | some siteId => state.sites.hasThemesExtendedFeatures siteId

/-- Modelled from the spec: `getSiteOption` of the sites slice. -/
def getSiteOption (state : AppState) (siteId : Option Nat) (opt : String) : Option String :=
  match siteId with
  | none => none
  | some siteId => state.sites.siteOption siteId opt

/-- Modelled from the spec: `getSiteSlug` of the sites slice, JS-coerced to a
string when concatenated for an absent site. -/
def getSiteSlug (state : AppState) : Option Nat → String
  | none => "null"
  | some siteId => state.sites.siteSlug siteId

/-- Modelled from the spec: `getCustomizerUrl` of the sites slice, a black-box
string builder that may yield `null`. -/
def getCustomizerUrl (state : AppState) (siteId : Option Nat) : Option String :=
  state.sites.customizerUrl siteId

/-- Modelled from the spec: `getSitePurchases` of the purchases slice. -/
def getSitePurchases (state : AppState) (siteId : Nat) : List Purchase :=
  state.sites.purchases siteId

/-- Modelled from the spec: `hasFeature` of the plans slice — the boolean
feature-present check per site and feature id. -/
def hasFeature (state : AppState) (siteId : Nat) (feature : String) : Bool :=
  state.sites.hasFeature siteId feature

/-- Modelled from the spec: the plan-feature identifier
`FEATURE_UNLIMITED_PREMIUM_THEMES` from `lib/plans/constants` (not under
`src/`); its concrete value is immaterial to the selectors. -/
def FEATURE_UNLIMITED_PREMIUM_THEMES : String := "unlimited_premium_themes"

/-- Modelled from the spec: the `oldShowcaseUrl` constant from
`state/themes/utils` (not under `src/`), the legacy showcase path root. -/
def oldShowcaseUrl : String := "/themes/"

/-- Modelled from the spec: `i18n.translate`, which yields the given label
text. -/
def i18nTranslate (s : String) : String := s

/-- Modelled from the spec: `isPremium` from `state/themes/utils` (not under
`src/`) — whether a (possibly absent) theme record carries the premium
flag; absent records are not premium. -/
def isPremium : Option Theme → Bool
  | none => false
  | some theme => theme.premium

/-- `getTheme`: the theme stored for a source and theme id, or `null` when
the source has no query manager or no such item. -/
def getTheme (state : AppState) (siteId : Source) (themeId : String) : Option Theme :=
  match state.themes.queries siteId with
  | none => none
  | some manager => manager.getItem themeId

/-- `getTheme` lifted to a possibly-null theme id: looking up the JS
`undefined` key yields `undefined`. -/
def getThemeOpt (state : AppState) (siteId : Source) : Option String → Option Theme
  | none => none
  | some themeId => getTheme state siteId themeId

/-- The source key denoted by a possibly-absent fallback site id. -/
def siteSource : Option Nat → Source
  | none => Source.undef
  | some siteId => Source.site siteId

/-- `getCanonicalTheme`: the record from the first source in the fixed
priority order wpcom, wporg, fallback site that contains the theme id
(lodash `find` over the source list), or `null` when none does. -/
def getCanonicalTheme (state : AppState) (siteId : Option Nat) (themeId : Option String) :
    Option Theme :=
  match List.find? (fun s => (getThemeOpt state s themeId).isSome)
      [Source.wpcom, Source.wporg, siteSource siteId] with
  | none => none
  | some source => getThemeOpt state source themeId

/-- `isWpcomTheme`: whether the theme id is in the WP.com directory. -/
def isWpcomTheme (state : AppState) (themeId : Option String) : Bool :=
  (getThemeOpt state Source.wpcom themeId).isSome

/-- `isWporgTheme`: whether the theme id is in the WP.org directory. -/
def isWporgTheme (state : AppState) (themeId : Option String) : Bool :=
  (getThemeOpt state Source.wporg themeId).isSome

/-- `isThemePremium`: whether the WP.com record for the theme id is
premium. -/
def isThemePremium (state : AppState) (themeId : String) : Bool :=
  isPremium (getTheme state Source.wpcom themeId)

/-- `isThemePremium` lifted to a possibly-null theme id. -/
def isThemePremiumOpt (state : AppState) : Option String → Bool
  | none => false
  | some themeId => isThemePremium state themeId

/-- `isThemePurchased`: lodash `some` over the site purchases matching
`productSlug = premium_theme` and `meta = themeId`. -/
def isThemePurchased (state : AppState) (themeId : String) (siteId : Nat) : Bool :=
  (getSitePurchases state siteId).any
    (fun p => p.productSlug == "premium_theme" && p.meta == some themeId)

/-- `isPremiumThemeAvailable`: purchased for the site, or the site has the
unlimited-premium-themes plan feature. -/
def isPremiumThemeAvailable (state : AppState) (themeId : String) (siteId : Nat) : Bool :=
  isThemePurchased state themeId siteId ||
    hasFeature state siteId FEATURE_UNLIMITED_PREMIUM_THEMES

/-- `shouldShowHomepageWarning`: the stored pending auto-loading-homepage
theme id equals the queried id and the `show` flag is set. -/
def shouldShowHomepageWarning (state : AppState) (themeId : String) : Bool :=
  match state.themes.themeHasAutoLoadingHomepageWarning with
  | none => false
  | some warning => warning.themeId == themeId && warning.showModal

/-- `hasAutoLoadingHomepageModalAccepted`: the stored pending theme id equals
the queried id and the `accepted` flag is set. -/
def hasAutoLoadingHomepageModalAccepted (state : AppState) (themeId : String) : Bool :=
  match state.themes.themeHasAutoLoadingHomepageWarning with
  | none => false
  | some warning => warning.themeId == themeId && warning.accepted

/-- A sample theme of the WP.com directory used by the closed witness
statements. -/
def themeAlpha : Theme :=
  { id := "alpha", stylesheet := "pub/alpha", premium := false,
    price := none, demo_uri := some "https://alphademo.wordpress.com" }

/-- A sample premium theme used by the closed witness statements. -/
def themeMood : Theme :=
  { id := "mood", stylesheet := "premium/mood", premium := true,
    price := some "$20", demo_uri := none }

/-- A WP.org copy of `themeAlpha`, distinguishable from the WP.com record. -/
def themeAlphaOrg : Theme :=
  { id := "alpha", stylesheet := "org/alpha", premium := false,
    price := none, demo_uri := none }

/-- A sample purchase of the premium theme `mood`. -/
def purchaseMood : Purchase := { productSlug := "premium_theme", meta := some "mood" }

/-- A sample pending homepage warning for the theme `maywood`. -/
def maywoodWarning : HomepageWarning :=
  { themeId := "maywood", showModal := true, accepted := false }

/-- A sites slice with no capabilities, used by the sample states. -/
def sitesEmpty : SitesState :=
  { isJetpack := fun _ => false, canManage := fun _ => false,
    hasThemesExtendedFeatures := fun _ => false,
    siteOption := fun _ _ => none, siteSlug := fun _ => "example.wordpress.com",
    customizerUrl := fun _ => some "/customize/example.wordpress.com",
    purchases := fun siteId => if siteId == 2 then [purchaseMood] else [],
    hasFeature := fun _ _ => false }

/-- A sample state: `alpha` known to both directories, `mood` on WP.com only,
site 2 holding a `premium_theme` purchase for `mood`, site 7 running the
suffixed active theme `x-wpcomy-wpcom`, and a pending homepage warning for
`maywood`. -/
def stSample : AppState :=
  { themes :=
      { queries := fun s =>
          match s with
          | Source.wpcom =>
              some
                { getItem := fun t =>
                    if t == "alpha" then some themeAlpha
                    else if t == "mood" then some themeMood
                    else none,
                  getItems := fun q =>
                    if q == "q1" then some [some themeAlpha, some themeMood, some themeAlpha]
                    else if q == "q2" then some [some themeAlpha, none]
                    else none }
          | Source.wporg =>
              some { getItem := fun t => if t == "alpha" then some themeAlphaOrg else none,
                     getItems := fun _ => none }
          | _ => none,
        activeThemes := fun siteId =>
          if siteId == 7 then some "x-wpcomy-wpcom"
          else if siteId == 5 then some "foo-wpcom"
          else none,
        themeHasAutoLoadingHomepageWarning :=
          some maywoodWarning },
    sites := sitesEmpty,
    config := fun _ => false }

/-- C1: for every state, fallback site id and theme id, `getCanonicalTheme`
returns the record of the first source in the fixed priority order wpcom,
wporg, fallback site containing the theme id; a theme id present on both
wpcom and wporg resolves to the wpcom record, and when no source contains
the id the result is absent (`null`) rather than an error. -/
theorem getCanonicalTheme_priority (state : AppState) (siteId : Nat) (themeId : String) :
    (∀ t, getTheme state Source.wpcom themeId = some t →
      getCanonicalTheme state (some siteId) (some themeId) = some t) ∧
    (getTheme state Source.wpcom themeId = none →
      ∀ t, getTheme state Source.wporg themeId = some t →
        getCanonicalTheme state (some siteId) (some themeId) = some t) ∧
    (getTheme state Source.wpcom themeId = none →
      getTheme state Source.wporg themeId = none →
        ∀ t, getTheme state (Source.site siteId) themeId = some t →
          getCanonicalTheme state (some siteId) (some themeId) = some t) ∧
    (getTheme state Source.wpcom themeId = none →
      getTheme state Source.wporg themeId = none →
        getTheme state (Source.site siteId) themeId = none →
          getCanonicalTheme state (some siteId) (some themeId) = none) := by
  refine ⟨?_, ?_, ?_, ?_⟩
  · intro t h
    simp [getCanonicalTheme, getThemeOpt, siteSource, List.find?, h]
  · intro hw t h
    simp [getCanonicalTheme, getThemeOpt, siteSource, List.find?, hw, h]
  · intro hw ho t h
    simp [getCanonicalTheme, getThemeOpt, siteSource, List.find?, hw, ho, h]
  · intro hw ho hs
    simp [getCanonicalTheme, getThemeOpt, siteSource, List.find?, hw, ho, hs]

/-- Witness for C1: in the sample state, `alpha` is present on both wpcom and
wporg and resolves to the wpcom record. -/
theorem getCanonicalTheme_priority_witness :
    getTheme stSample Source.wpcom "alpha" = some themeAlpha ∧
      getCanonicalTheme stSample (some 3) (some "alpha") = some themeAlpha :=
  ⟨by rfl, (getCanonicalTheme_priority stSample 3 "alpha").1 themeAlpha (by rfl)⟩

/-- C3: for every state, theme id and site id, `isPremiumThemeAvailable` is
true if and only if some site purchase has product slug `premium_theme`
with the theme id as its metadata, or the site has the
unlimited-premium-themes plan feature; it is false in the remaining case of
the purchase/feature table. -/
theorem isPremiumThemeAvailable_iff (state : AppState) (themeId : String) (siteId : Nat) :
    isPremiumThemeAvailable state themeId siteId = true ↔
      (∃ p ∈ getSitePurchases state siteId,
          p.productSlug = "premium_theme" ∧ p.meta = some themeId) ∨
        hasFeature state siteId FEATURE_UNLIMITED_PREMIUM_THEMES = true := by
  simp [isPremiumThemeAvailable, isThemePurchased, List.any_eq_true]

/-- Witness for C3: in the sample state, site 2 has purchased the premium
theme `mood`, so it is available there. -/
theorem isPremiumThemeAvailable_iff_witness :
    isPremiumThemeAvailable stSample "mood" 2 = true :=
  (isPremiumThemeAvailable_iff stSample "mood" 2).mpr
    (Or.inl ⟨purchaseMood, by decide, by decide, by decide⟩)

/-- C7: for every state and theme id, `shouldShowHomepageWarning` is true
exactly when the stored pending auto-loading-homepage record matches the
theme id and has `show` set, `hasAutoLoadingHomepageModalAccepted` is true
exactly when it matches and has `accepted` set, and for a non-matching
theme id both are false. -/
theorem homepageWarning_spec (state : AppState) (themeId : String) :
    (shouldShowHomepageWarning state themeId = true ↔
      ∃ w, state.themes.themeHasAutoLoadingHomepageWarning = some w ∧
        w.themeId = themeId ∧ w.showModal = true) ∧
    (hasAutoLoadingHomepageModalAccepted state themeId = true ↔
      ∃ w, state.themes.themeHasAutoLoadingHomepageWarning = some w ∧
        w.themeId = themeId ∧ w.accepted = true) ∧
    (∀ w, state.themes.themeHasAutoLoadingHomepageWarning = some w →
      w.themeId ≠ themeId →
        shouldShowHomepageWarning state themeId = false ∧
          hasAutoLoadingHomepageModalAccepted state themeId = false) := by
  refine ⟨?_, ?_, ?_⟩
  · cases h : state.themes.themeHasAutoLoadingHomepageWarning with
    | none => simp [shouldShowHomepageWarning, h]
    | some w => simp [shouldShowHomepageWarning, h]
  · cases h : state.themes.themeHasAutoLoadingHomepageWarning with
    | none => simp [hasAutoLoadingHomepageModalAccepted, h]
    | some w => simp [hasAutoLoadingHomepageModalAccepted, h]
  · intro w h hne
    simp [shouldShowHomepageWarning, hasAutoLoadingHomepageModalAccepted, h, hne]

/-- Witness for C7: the sample state has a pending warning for `maywood` with
`show` set, so the warning is shown for `maywood`. -/
theorem homepageWarning_spec_witness :
    shouldShowHomepageWarning stSample "maywood" = true :=
  (homepageWarning_spec stSample "maywood").1.mpr
    ⟨maywoodWarning, by rfl, by decide, by decide⟩

/-- Lodash `uniq` with an explicit list of already-kept elements: keeps the
first occurrence of each value, in order. -/
def jsUniqAux [DecidableEq α] (seen : List α) : List α → List α
  | [] => []
  | x :: xs => if x ∈ seen then jsUniqAux seen xs else x :: jsUniqAux (x :: seen) xs

/-- Lodash `uniq`: the input with later duplicates removed. -/
def jsUniq [DecidableEq α] (l : List α) : List α := jsUniqAux [] l

theorem jsUniqAux_mem [DecidableEq α] (seen : List α) (l : List α) :
    ∀ y ∈ jsUniqAux seen l, y ∈ l := by
  induction l generalizing seen with
  | nil => intro y hy; simp [jsUniqAux] at hy
  | cons x xs ih =>
    intro y hy
    by_cases hx : x ∈ seen
    · simp only [jsUniqAux, if_pos hx] at hy
      exact List.mem_cons_of_mem x (ih seen y hy)
    · simp only [jsUniqAux, if_neg hx, List.mem_cons] at hy
      rcases hy with hy | hy
      · exact hy ▸ List.mem_cons_self x xs
      · exact List.mem_cons_of_mem x (ih (x :: seen) y hy)

theorem jsUniqAux_not_mem_seen [DecidableEq α] (seen : List α) (l : List α) :
    ∀ y ∈ jsUniqAux seen l, y ∉ seen := by
  induction l generalizing seen with
  | nil => intro y hy; simp [jsUniqAux] at hy
  | cons x xs ih =>
    intro y hy
    by_cases hx : x ∈ seen
    · simp only [jsUniqAux, if_pos hx] at hy
      exact ih seen y hy
    · simp only [jsUniqAux, if_neg hx, List.mem_cons] at hy
      rcases hy with hy | hy
      · exact hy ▸ hx
      · intro hseen
        exact ih (x :: seen) y hy (List.mem_cons_of_mem x hseen)

theorem jsUniqAux_nodup [DecidableEq α] (seen : List α) (l : List α) :
    (jsUniqAux seen l).Nodup := by
  induction l generalizing seen with
  | nil => simp [jsUniqAux]
  | cons x xs ih =>
    by_cases hx : x ∈ seen
    · simpa only [jsUniqAux, if_pos hx] using ih seen
    · simp only [jsUniqAux, if_neg hx]
      refine List.Nodup.cons ?_ (ih (x :: seen))
      intro hmem
      exact jsUniqAux_not_mem_seen (x :: seen) xs x hmem (List.mem_cons_self x seen)

theorem jsUniq_nodup [DecidableEq α] (l : List α) : (jsUniq l).Nodup :=
  jsUniqAux_nodup [] l

theorem jsUniq_mem [DecidableEq α] (l : List α) : ∀ y ∈ jsUniq l, y ∈ l :=
  jsUniqAux_mem [] l

/-- `getThemesForQuery`: `null` when the site has no query manager or the
manager has no result set for the query; `null` when the page result set
contains an unresolved (`undefined`) entry; otherwise the result set with
duplicates removed (lodash `uniq`). -/
def getThemesForQuery (state : AppState) (siteId : Source) (query : ThemeQuery) :
    Option (List (Option Theme)) :=
  match state.themes.queries siteId with
  | none => none
  | some manager =>
    match manager.getItems query with
    | none => none
    | some themes =>
      if none ∈ themes then none
      else some (jsUniq themes)

/-- C2: for every state, site id and query, `getThemesForQuery` is `null`
when no result set is known (no manager, or no items for the query), is
`null` whenever the page result set contains an unresolved (`undefined`)
entry, and otherwise returns a duplicate-free sequence whose members all
come from the returned result set. -/
theorem getThemesForQuery_spec (state : AppState) (siteId : Source) (query : ThemeQuery) :
    ((state.themes.queries siteId).bind (fun m => m.getItems query) = none →
      getThemesForQuery state siteId query = none) ∧
    (∀ themes, (state.themes.queries siteId).bind (fun m => m.getItems query) = some themes →
      (none ∈ themes → getThemesForQuery state siteId query = none) ∧
      (none ∉ themes →
        ∃ l, getThemesForQuery state siteId query = some l ∧
          l.Nodup ∧ ∀ x ∈ l, x ∈ themes)) := by
  constructor
  · intro h
    cases hq : state.themes.queries siteId with
    | none => simp [getThemesForQuery, hq]
    | some manager =>
      rw [hq] at h
      simp only [Option.some_bind] at h
      simp [getThemesForQuery, hq, h]
  · intro themes h
    cases hq : state.themes.queries siteId with
    | none => rw [hq] at h; simp at h
    | some manager =>
      rw [hq] at h
      simp only [Option.some_bind] at h
      constructor
      · intro hu
        simp [getThemesForQuery, hq, h, hu]
      · intro hu
        refine ⟨jsUniq themes, ?_, jsUniq_nodup themes, jsUniq_mem themes⟩
        simp [getThemesForQuery, hq, h, hu]

/-- Witness for C2: in the sample state, query `q1` on the wpcom collection
is fully resolved with a duplicated `alpha` entry, and the selector returns
the deduplicated set. -/
theorem getThemesForQuery_spec_witness :
    (stSample.themes.queries Source.wpcom).bind (fun m => m.getItems "q1") =
        some [some themeAlpha, some themeMood, some themeAlpha] ∧
      none ∉ [some themeAlpha, some themeMood, some themeAlpha] ∧
      ∃ l, getThemesForQuery stSample Source.wpcom "q1" = some l ∧
        l.Nodup ∧ ∀ x ∈ l, x ∈ [some themeAlpha, some themeMood, some themeAlpha] :=
  ⟨by rfl, by decide,
    ((getThemesForQuery_spec stSample Source.wpcom "q1").2
        [some themeAlpha, some themeMood, some themeAlpha] (by rfl)).2 (by decide)⟩

/-- The character sequence of the `-wpcom` suffix appended to WP.com theme
ids installed on Jetpack sites. -/
def wpcomSuffix : List Char := ['-', 'w', 'p', 'c', 'o', 'm']

/-- JS `String.prototype.replace` with a string pattern and empty
replacement: removes the first occurrence of the pattern, scanning left to
right; the input is unchanged when the pattern does not occur. -/
def replaceFirstAux (pat : List Char) : List Char → List Char
  | [] => []
  | c :: s =>
    if pat.isPrefixOf (c :: s) then (c :: s).drop pat.length
    else c :: replaceFirstAux pat s

/-- JS `themeId.replace( '-wpcom', '' )` on strings. -/
def stripWpcom (s : String) : String := String.mk (replaceFirstAux wpcomSuffix s.data)

/-- `getActiveTheme`: the stored active theme id of the site with the first
occurrence of `-wpcom` removed, or `null` when none is stored. -/
def getActiveTheme (state : AppState) (siteId : Nat) : Option String :=
  match state.themes.activeThemes siteId with
  | none => none
  | some activeTheme => some (stripWpcom activeTheme)

/-- `isThemeActive`: strict equality of `getActiveTheme` against the queried
theme id. -/
def isThemeActive (state : AppState) (themeId : String) (siteId : Nat) : Bool :=
  getActiveTheme state siteId == some themeId

theorem replaceFirstAux_cons_pos (pat : List Char) (c : Char) (s : List Char)
    (h : pat <+: (c :: s)) : replaceFirstAux pat (c :: s) = (c :: s).drop pat.length := by
  simp only [replaceFirstAux]
  rw [if_pos ( List.isPrefixOf_iff_prefix.mpr h)]

theorem replaceFirstAux_cons_neg (pat : List Char) (c : Char) (s : List Char)
    (h : ¬ pat <+: (c :: s)) : replaceFirstAux pat (c :: s) = c :: replaceFirstAux pat s := by
  simp only [replaceFirstAux]
  rw [if_neg (fun hT => h ( List.isPrefixOf_iff_prefix.mp hT))]

theorem wpcomSuffix_no_overlap :
    ∀ m, m < 6 → 0 < m → ¬ (wpcomSuffix <+: (wpcomSuffix.take m ++ wpcomSuffix)) := by
  decide

/-- Removing the first `-wpcom` occurrence from `id ++ "-wpcom"` recovers
`id`, provided `-wpcom` does not occur inside `id` itself. -/
theorem replaceFirstAux_append_suffix (id : List Char) (h : ¬ wpcomSuffix <:+: id) :
    replaceFirstAux wpcomSuffix (id ++ wpcomSuffix) = id := by
  induction id with
  | nil => decide
  | cons c s ih =>
    have hni : ¬ wpcomSuffix <:+: s := fun hi => h (List.infix_cons hi)
    have hnp : ¬ wpcomSuffix <+: (c :: (s ++ wpcomSuffix)) := by
      rw [← List.cons_append]
      intro hp
      rcases le_or_lt wpcomSuffix.length (c :: s).length with hle | hlt
      · have : wpcomSuffix <+: (c :: s) :=
          List.prefix_of_prefix_length_le hp (List.prefix_append (c :: s) wpcomSuffix) hle
        exact h this.isInfix
      · have hsp : (c :: s) <+: (c :: s) ++ wpcomSuffix := List.prefix_append _ _
        have hcs : (c :: s) <+: wpcomSuffix :=
          List.prefix_of_prefix_length_le hsp hp (Nat.le_of_lt hlt)
        have heq : (c :: s) = wpcomSuffix.take (c :: s).length :=
          List.prefix_iff_eq_take.mp hcs
        rw [heq] at hp
        exact wpcomSuffix_no_overlap (c :: s).length hlt (by simp) hp
    rw [List.cons_append, replaceFirstAux_cons_neg wpcomSuffix c (s ++ wpcomSuffix) hnp,
      ih hni]

/-- When `-wpcom` occurs in the input, `replaceFirstAux` removes exactly one
occurrence: the output is shorter by the pattern length. -/
theorem replaceFirstAux_length_of_infix (s : List Char) (h : wpcomSuffix <:+: s) :
    (replaceFirstAux wpcomSuffix s).length + wpcomSuffix.length = s.length := by
  induction s with
  | nil => exact absurd h (by decide)
  | cons c s ih =>
    by_cases hp : wpcomSuffix <+: (c :: s)
    · rw [replaceFirstAux_cons_pos wpcomSuffix c s hp, List.length_drop]
      exact Nat.sub_add_cancel hp.length_le
    · have hi : wpcomSuffix <:+: s := by
        rcases List.infix_cons_iff.mp h with h1 | h2
        · exact absurd h1 hp
        · exact h2
      rw [replaceFirstAux_cons_neg wpcomSuffix c s hp, List.length_cons, List.length_cons]
      have := ih hi
      omega

/-- C4 counterexample: `getActiveTheme` removes the first occurrence of
`-wpcom` anywhere in the stored id, not only a suffix.  With
`"x-wpcomy" ++ "-wpcom"` stored on site 7, stripping yields `"xy-wpcom"`,
so the query with the bare id `"x-wpcomy"` returns `false`, though the
claim predicts `true`. -/
theorem isThemeActive_suffix_claim_counterexample :
    stSample.themes.activeThemes 7 = some ("x-wpcomy" ++ "-wpcom") ∧
      isThemeActive stSample "x-wpcomy" 7 = false := by
  constructor
  · decide
  · decide

/-- C4 (amended): `isThemeActive` compares the stored active-theme id with
the first occurrence of the substring `-wpcom` removed against the raw
queried theme id; in particular, whenever the stored active theme id is
`id ++ "-wpcom"` for an `id` that does not itself contain `-wpcom`, the
query with the bare `id` returns true. -/
theorem isThemeActive_stripped_spec (state : AppState) (siteId : Nat) :
    (∀ themeId : String, isThemeActive state themeId siteId = true ↔
      ∃ a, state.themes.activeThemes siteId = some a ∧ stripWpcom a = themeId) ∧
    (∀ id : String, state.themes.activeThemes siteId = some (id ++ "-wpcom") →
      ¬ (wpcomSuffix <:+: id.data) → isThemeActive state id siteId = true) := by
  constructor
  · intro themeId
    unfold isThemeActive getActiveTheme
    cases h : state.themes.activeThemes siteId with
    | none => simp
    | some a => simp
  · intro id hstore hni
    have hstrip : stripWpcom (id ++ "-wpcom") = id := by
      unfold stripWpcom
      rw [String.data_append]
      have hpat : ("-wpcom" : String).data = wpcomSuffix := by decide
      rw [hpat, replaceFirstAux_append_suffix id.data hni]
    unfold isThemeActive getActiveTheme
    rw [hstore]
    simp [hstrip]

/-- Witness for C4 (amended): with `"foo-wpcom"` stored on site 5 and `foo`
free of the `-wpcom` substring, the query with bare `foo` is true. -/
theorem isThemeActive_stripped_spec_witness :
    stSample.themes.activeThemes 5 = some ("foo" ++ "-wpcom") ∧
      ¬ (wpcomSuffix <:+: "foo".data) ∧
      isThemeActive stSample "foo" 5 = true :=
  ⟨by decide, by decide,
    (isThemeActive_stripped_spec stSample 5).2 "foo" (by decide) (by decide)⟩

/-- C9: for every state and site whose stored active theme id contains the
substring `-wpcom`, `isThemeActive` queried with that exact stored
(suffixed) id returns false: stripping removes one occurrence, so the
stripped id is strictly shorter than the stored id and never equals it. -/
theorem isThemeActive_suffixed_input_false (state : AppState) (siteId : Nat) (s : String)
    (h : state.themes.activeThemes siteId = some s) (hinf : wpcomSuffix <:+: s.data) :
    isThemeActive state s siteId = false := by
  have hlen := replaceFirstAux_length_of_infix s.data hinf
  unfold isThemeActive getActiveTheme
  rw [h]
  have hne : stripWpcom s ≠ s := by
    intro heq
    have hd : replaceFirstAux wpcomSuffix s.data = s.data := congrArg String.data heq
    have hlens := congrArg List.length hd
    have h6 : wpcomSuffix.length = 6 := rfl
    rw [h6] at hlen
    omega
  simp [hne]

/-- Witness for C9: the stored suffixed id `x-wpcomy-wpcom` on site 7 does
not test as active when queried verbatim. -/
theorem isThemeActive_suffixed_input_false_witness :
    stSample.themes.activeThemes 7 = some "x-wpcomy-wpcom" ∧
      (wpcomSuffix <:+: ("x-wpcomy-wpcom" : String).data) ∧
      isThemeActive stSample "x-wpcomy-wpcom" 7 = false :=
  ⟨by decide, by decide,
    isThemeActive_suffixed_input_false stSample 7 "x-wpcomy-wpcom" (by decide) (by decide)⟩

/-- `getPremiumThemePrice`: the empty string when the theme is not premium
or is already available for the site; the translated `Upgrade` label for a
Jetpack site; otherwise the price listed on the wpcom record. -/
def getPremiumThemePrice (state : AppState) (themeId : String) (siteId : Nat) :
    Option String :=
  if !(isThemePremium state themeId) || isPremiumThemeAvailable state themeId siteId then
    some ""
  else if isJetpackSite state (some siteId) then
    some (i18nTranslate "Upgrade")
  else
    (getTheme state Source.wpcom themeId).bind Theme.price

/-- C5: for every state, theme id and site id, `getPremiumThemePrice` is the
empty string if the theme is not premium or is already available for the
site (regardless of purchase state), the `Upgrade` label if the site is a
Jetpack site, and otherwise the price string listed on the wpcom theme
record. -/
theorem getPremiumThemePrice_spec (state : AppState) (themeId : String) (siteId : Nat) :
    (isThemePremium state themeId = false →
      getPremiumThemePrice state themeId siteId = some "") ∧
    (isPremiumThemeAvailable state themeId siteId = true →
      getPremiumThemePrice state themeId siteId = some "") ∧
    (isThemePremium state themeId = true →
      isPremiumThemeAvailable state themeId siteId = false →
      isJetpackSite state (some siteId) = true →
      getPremiumThemePrice state themeId siteId = some (i18nTranslate "Upgrade")) ∧
    (isThemePremium state themeId = true →
      isPremiumThemeAvailable state themeId siteId = false →
      isJetpackSite state (some siteId) = false →
      ∀ t, getTheme state Source.wpcom themeId = some t →
        getPremiumThemePrice state themeId siteId = t.price) := by
  refine ⟨?_, ?_, ?_, ?_⟩
  · intro h; simp [getPremiumThemePrice, h]
  · intro h; simp [getPremiumThemePrice, h]
  · intro h1 h2 h3; simp [getPremiumThemePrice, h1, h2, h3]
  · intro h1 h2 h3 t ht; simp [getPremiumThemePrice, h1, h2, h3, ht]

/-- Witness for C5: the premium theme `mood` on the plain site 3 (no
purchase, no plan feature, not Jetpack) shows the wpcom-listed price. -/
theorem getPremiumThemePrice_spec_witness :
    isThemePremium stSample "mood" = true ∧
      isPremiumThemeAvailable stSample "mood" 3 = false ∧
      isJetpackSite stSample (some 3) = false ∧
      getTheme stSample Source.wpcom "mood" = some themeMood ∧
      getPremiumThemePrice stSample "mood" 3 = themeMood.price :=
  ⟨by decide, by decide, by decide, by decide,
    (getPremiumThemePrice_spec stSample "mood" 3).2.2.2 (by decide) (by decide) (by decide)
      themeMood (by decide)⟩

/-- Lodash `includes` on a possibly-null string: substring containment,
false for `null`. -/
def jsIncludes (o : Option String) (pat : String) : Bool :=
  match o with
  | none => false
  | some s => decide (pat.data <:+: s.data)

/-- `isThemeActive` on the possibly-null arguments of the URL selectors:
strict equality never holds when either side is `null`/`undefined`. -/
def isThemeActiveOpt (state : AppState) : Option String → Option Nat → Bool
  | some themeId, some siteId => isThemeActive state themeId siteId
  | _, _ => false

/-- `getThemeDetailsUrl`: `null` for a falsy theme id; the wp-admin themes
page for a Jetpack site without the extended-details capabilities;
otherwise the showcase details path (new or old style by feature flag),
suffixed with the site slug when a site id is given. -/
def getThemeDetailsUrl (state : AppState) (themeId : Option String) (siteId : Option Nat) :
    Option String :=
  if !(truthyStr themeId) then none
  else
    let t := themeId.getD ""
    if isJetpackSite state siteId &&
        !(state.config "manage/themes/details/jetpack" && canJetpackSiteManage state siteId &&
          hasJetpackSiteJetpackThemesExtendedFeatures state siteId) then
      some (jsString (getSiteOption state siteId "admin_url") ++ "themes.php?theme=" ++ t)
    else
      let baseUrl :=
        if state.config "manage/themes/details" then "/theme/" ++ t else oldShowcaseUrl ++ t
      some (baseUrl ++ (if truthyNat siteId then "/" ++ getSiteSlug state siteId else ""))

/-- `getThemeSupportUrl`: `null` for a falsy theme id or a non-premium
theme; otherwise the setup-instructions path (new or old style by feature
flag). -/
def getThemeSupportUrl (state : AppState) (themeId : Option String) (siteId : Option Nat) :
    Option String :=
  if !(truthyStr themeId) || !(isThemePremiumOpt state themeId) then none
  else
    let t := themeId.getD ""
    let sitePart := if truthyNat siteId then "/" ++ getSiteSlug state siteId else ""
    if state.config "manage/themes/details" then some ("/theme/" ++ t ++ "/setup" ++ sitePart)
    else some (oldShowcaseUrl ++ sitePart ++ t ++ "/support")

/-- `getThemeHelpUrl`: `null` for a falsy theme id; otherwise the support
page path (new or old style by feature flag), suffixed with the site slug
when a site id is given. -/
def getThemeHelpUrl (state : AppState) (themeId : Option String) (siteId : Option Nat) :
    Option String :=
  if !(truthyStr themeId) then none
  else
    let t := themeId.getD ""
    let baseUrl :=
      if state.config "manage/themes/details" then "/theme/" ++ t ++ "/support"
      else oldShowcaseUrl ++ t
    some (baseUrl ++ (if truthyNat siteId then "/" ++ getSiteSlug state siteId else ""))

/-- `getThemePurchaseUrl`: `null` for a Jetpack site or a non-premium theme;
otherwise the checkout path for the theme on the site. -/
def getThemePurchaseUrl (state : AppState) (themeId : Option String) (siteId : Option Nat) :
    Option String :=
  if isJetpackSite state siteId || !(isThemePremiumOpt state themeId) then none
  else some ("/checkout/" ++ getSiteSlug state siteId ++ "/theme:" ++ jsString themeId)

/-- `getThemeCustomizeUrl`: the bare customizer URL when the site or theme
id is falsy or the theme is already active; otherwise the customizer URL
with a `theme=` query argument — the raw theme id on a Jetpack site, the
wpcom record's stylesheet elsewhere (falling back to the bare customizer
URL when no wpcom record exists). -/
def getThemeCustomizeUrl (state : AppState) (themeId : Option String) (siteId : Option Nat) :
    Option String :=
  let customizerUrl := getCustomizerUrl state siteId
  if !(truthyNat siteId && truthyStr themeId) || isThemeActiveOpt state themeId siteId then
    customizerUrl
  else
    let separator := if jsIncludes customizerUrl "?" then "&" else "?"
    match
      (if isJetpackSite state siteId then some (themeId.getD "")
       else (getThemeOpt state Source.wpcom themeId).map Theme.stylesheet) with
    | none => customizerUrl
    | some identifier => some (jsString customizerUrl ++ separator ++ "theme=" ++ identifier)

/-- `getThemeSignupUrl`: `null` for a falsy theme id; otherwise the signup
path with the theme pre-selected, flagged premium when it is. -/
def getThemeSignupUrl (state : AppState) (themeId : Option String) : Option String :=
  if !(truthyStr themeId) then none
  else
    let url := "/start/with-theme?ref=calypshowcase&theme=" ++ themeId.getD ""
    if isThemePremiumOpt state themeId then some (url ++ "&premium=true") else some url

/-- `getThemeDemoUrl`: the `demo_uri` of the canonical record, absent when
there is none. -/
def getThemeDemoUrl (state : AppState) (themeId : Option String) (siteId : Option Nat) :
    Option String :=
  (getCanonicalTheme state siteId themeId).bind Theme.demo_uri

/-- `getThemeForumUrl`: the premium forum for a premium theme, the generic
themes forum for a wpcom theme, the wporg support page for a wporg theme,
`null` otherwise. -/
def getThemeForumUrl (state : AppState) (themeId : Option String) : Option String :=
  if isThemePremiumOpt state themeId then
    some ("//premium-themes.forums.wordpress.com/forum/" ++ jsString themeId)
  else if isWpcomTheme state themeId then some "//en.forums.wordpress.com/forum/themes"
  else if isWporgTheme state themeId then
    some ("//wordpress.org/support/theme/" ++ jsString themeId)
  else none

/-- C6 counterexample: with an absent theme id, `getThemeCustomizeUrl`
returns the site's customizer URL — a present string, not `null` — so the
claim that every URL selector of the family returns `null` on an absent
theme id fails; `getThemeSupportUrl` also shows the converse half failing:
a present theme id with a free theme still yields `null`. -/
theorem themeUrl_null_claim_counterexample :
    getThemeCustomizeUrl stSample none (some 1) = some "/customize/example.wordpress.com" ∧
      getThemeCustomizeUrl stSample none (some 1) ≠ none ∧
      getThemeSupportUrl stSample (some "alpha") (some 1) = none := by
  refine ⟨by decide, by decide, by decide⟩

/-- C6 (amended): each of the details, support, help, purchase, signup,
demo and forum URL selectors returns `null` when the theme id is absent;
`getThemeCustomizeUrl` instead falls back to the site's customizer URL;
`getThemeDetailsUrl`, `getThemeHelpUrl` and `getThemeSignupUrl` return a
path string whenever the theme id is present and non-empty — in
particular, `getThemeDetailsUrl` with a `null` theme id returns `null`
regardless of all other arguments. -/
theorem themeUrls_absent_themeId_spec (state : AppState) (siteId : Option Nat) :
    getThemeDetailsUrl state none siteId = none ∧
    getThemeSupportUrl state none siteId = none ∧
    getThemeHelpUrl state none siteId = none ∧
    getThemePurchaseUrl state none siteId = none ∧
    getThemeSignupUrl state none = none ∧
    getThemeDemoUrl state none siteId = none ∧
    getThemeForumUrl state none = none ∧
    getThemeCustomizeUrl state none siteId = getCustomizerUrl state siteId ∧
    (∀ t : String, t ≠ "" → ∃ u, getThemeDetailsUrl state (some t) siteId = some u) ∧
    (∀ t : String, t ≠ "" → ∃ u, getThemeHelpUrl state (some t) siteId = some u) ∧
    (∀ t : String, t ≠ "" → ∃ u, getThemeSignupUrl state (some t) = some u) := by
  refine ⟨?_, ?_, ?_, ?_, ?_, ?_, ?_, ?_, ?_, ?_, ?_⟩
  · simp [getThemeDetailsUrl, truthyStr]
  · simp [getThemeSupportUrl, truthyStr]
  · simp [getThemeHelpUrl, truthyStr]
  · simp [getThemePurchaseUrl, isThemePremiumOpt]
  · simp [getThemeSignupUrl, truthyStr]
  · simp [getThemeDemoUrl, getCanonicalTheme, getThemeOpt, List.find?]
  · simp [getThemeForumUrl, isThemePremiumOpt, isWpcomTheme, isWporgTheme, getThemeOpt]
  · simp [getThemeCustomizeUrl, truthyStr]
  · intro t ht
    have htr : truthyStr (some t) = true := by simp [truthyStr, ht]
    rw [← Option.isSome_iff_exists]
    simp only [getThemeDetailsUrl, htr, Bool.not_true, Bool.false_eq_true, if_false]
    split
    · simp
    · simp
  · intro t ht
    have htr : truthyStr (some t) = true := by simp [truthyStr, ht]
    rw [← Option.isSome_iff_exists]
    simp only [getThemeHelpUrl, htr, Bool.not_true, Bool.false_eq_true, if_false]
    simp
  · intro t ht
    have htr : truthyStr (some t) = true := by simp [truthyStr, ht]
    rw [← Option.isSome_iff_exists]
    simp only [getThemeSignupUrl, htr, Bool.not_true, Bool.false_eq_true, if_false]
    split
    · simp
    · simp

/-- Witness for C6 (amended): the present theme id `alpha` yields a details
URL in the sample state. -/
theorem themeUrls_absent_themeId_spec_witness :
    ("alpha" : String) ≠ "" ∧
      ∃ u, getThemeDetailsUrl stSample (some "alpha") (some 1) = some u :=
  ⟨by decide,
    (themeUrls_absent_themeId_spec stSample (some 1)).2.2.2.2.2.2.2.2.1 "alpha" (by decide)⟩

/-- C10: `getThemeSupportUrl` returns `null` not only for an absent theme
id but for every non-premium theme; only for a premium theme (with a
truthy id) does it return a setup path string, and every returned path
attests a premium wpcom theme. -/
theorem getThemeSupportUrl_premium_only (state : AppState) (themeId : Option String)
    (siteId : Option Nat) :
    (themeId = none → getThemeSupportUrl state themeId siteId = none) ∧
    (∀ t, themeId = some t → isThemePremium state t = false →
      getThemeSupportUrl state themeId siteId = none) ∧
    (∀ u, getThemeSupportUrl state themeId siteId = some u →
      ∃ t, themeId = some t ∧ t ≠ "" ∧ isThemePremium state t = true) ∧
    (∀ t, themeId = some t → t ≠ "" → isThemePremium state t = true →
      ∃ u, getThemeSupportUrl state themeId siteId = some u) := by
  refine ⟨?_, ?_, ?_, ?_⟩
  · intro h; subst h; simp [getThemeSupportUrl, truthyStr]
  · intro t h hp; subst h
    simp [getThemeSupportUrl, isThemePremiumOpt, hp]
  · intro u hu
    cases themeId with
    | none => simp [getThemeSupportUrl, truthyStr] at hu
    | some t =>
      refine ⟨t, rfl, ?_, ?_⟩
      · intro he
        subst he
        simp [getThemeSupportUrl, truthyStr] at hu
      · by_contra hp
        have hp' : isThemePremium state t = false := by
          cases h : isThemePremium state t
          · rfl
          · exact absurd h hp
        simp [getThemeSupportUrl, isThemePremiumOpt, hp'] at hu
  · intro t h ht hp; subst h
    have htr : truthyStr (some t) = true := by simp [truthyStr, ht]
    rw [← Option.isSome_iff_exists]
    simp only [getThemeSupportUrl, htr, isThemePremiumOpt, hp, Bool.not_true,
      Bool.false_eq_true, Bool.or_self, if_false]
    split
    · simp
    · simp

/-- Witness for C10: the premium theme `mood` has a support URL in the
sample state, with no site context. -/
theorem getThemeSupportUrl_premium_only_witness :
    isThemePremium stSample "mood" = true ∧ ("mood" : String) ≠ "" ∧
      ∃ u, getThemeSupportUrl stSample (some "mood") none = some u :=
  ⟨by decide, by decide,
    (getThemeSupportUrl_premium_only stSample (some "mood") none).2.2.2 "mood" rfl
      (by decide) (by decide)⟩
